import Mathlib

/-!
Verification of the request-admission and session-authentication core of the
slop-checker repository (lib/requestIdentity.ts, lib/rateLimit.ts,
lib/session.ts, app/api/analyze/route.ts).

Strings are modelled as lists of characters (`Str`), JavaScript string
primitives (split, trim, parseInt, number-to-string) as executable Lean
functions over `Str`, the HMAC primitive (an external crypto library call)
as an explicit function parameter, and `process.env` configuration as
explicit environment records.  Clock reads (`Date.now()`) and randomness
(`crypto.randomUUID()`) are passed as parameters.
-/

namespace SlopChecker

/-- JS strings, modelled as lists of characters. -/
abbrev Str := List Char

/-- Embed a Lean string literal into the `Str` model. -/
def str (s : String) : Str := s.data

/-- Whitespace characters recognised by the JS string primitives we model
(space, tab, LF, VT, FF, CR). -/
def jsWhitespace (c : Char) : Bool :=
  c.toNat = 32 || c.toNat = 9 || c.toNat = 10 || c.toNat = 11 || c.toNat = 12 || c.toNat = 13

/-- Decimal digit test (character code 48–57). -/
def isDigitChar (c : Char) : Bool :=
  48 ≤ c.toNat && c.toNat ≤ 57

/-- Model of JS `String.prototype.split` with a single-character separator:
splits on every occurrence, keeping empty fields, and yields `[[]]` on the
empty string, exactly like JS `"".split(sep) === [""]`. -/
def splitChar (sep : Char) : Str → List Str
  | [] => [[]]
  | c :: cs =>
    if c = sep then [] :: splitChar sep cs
    else
      match splitChar sep cs with
      | [] => [[c]]
      | h :: t => (c :: h) :: t

/-- Model of JS `String.prototype.trim`: drop whitespace from both ends. -/
def jsTrim (l : Str) : Str :=
  ((l.dropWhile jsWhitespace).reverse.dropWhile jsWhitespace).reverse

/-- Accumulate a decimal digit list into a natural number. -/
def readDigits (ds : Str) : Nat :=
  ds.foldl (fun a c => a * 10 + (c.toNat - 48)) 0

/-- Fuel-driven decimal rendering of a natural number (most significant digit
first); structural recursion so the kernel can evaluate it. -/
def natDecimalAux : Nat → Nat → Str
  | 0, _ => []
  | fuel + 1, n =>
    if n < 10 then [Char.ofNat (48 + n)]
    else natDecimalAux fuel (n / 10) ++ [Char.ofNat (48 + n % 10)]

/-- Decimal digit string of a natural number, as JS number-to-string
produces for integral values. -/
def natDecimal (n : Nat) : Str := natDecimalAux (n + 1) n

/-- Model of JS number-to-string coercion for integer-valued numbers. -/
def jsIntStr (i : Int) : Str :=
  if i < 0 then '-' :: natDecimal i.natAbs else natDecimal i.toNat

/-- Model of JS `Number.parseInt(s, 10)`: skip leading whitespace, optional
sign, then the longest digit run; `none` models `NaN` (no digits). -/
def parseInt10 (s : Str) : Option Int :=
  match s.dropWhile jsWhitespace with
  | [] => none
  | c :: rest =>
    if c = '-' then
      match rest.takeWhile isDigitChar with
      | [] => none
      | ds => some (-(readDigits ds : Int))
    else if c = '+' then
      match rest.takeWhile isDigitChar with
      | [] => none
      | ds => some ((readDigits ds : Int))
    else
      match (c :: rest).takeWhile isDigitChar with
      | [] => none
      | ds => some ((readDigits ds : Int))

/-!  ## Request model

The slice of a `NextRequest` this subsystem reads: the direct peer address
`request.ip`, the `x-real-ip` and `x-forwarded-for` headers, and the
session header and session cookie values.  `none` is an absent field or
header; `some []` is a present-but-empty value (falsy in JS). -/

structure Request where
  ip : Option Str
  realIp : Option Str
  forwardedFor : Option Str
  sessionHeader : Option Str
  sessionCookie : Option Str
deriving DecidableEq

/-!  ## lib/requestIdentity.ts -/

/-- The sentinel identifier (`FALLBACK_IDENTIFIER = 'unknown'`). -/
def FALLBACK_IDENTIFIER : Str := str "unknown"

/-- Embeds `stripIpv6Prefix`: `value.replace(/^::ffff:/, '')` removes one
leading IPv4-mapped-IPv6 marker. -/
def stripIpv6 (value : Str) : Str :=
  if (str "::ffff:").isPrefixOf value then value.drop 7 else value

/-- Third precedence stage of `getClientIdentifier`: the
`x-forwarded-for` branch and the final sentinel fallback. -/
def resolveForwarded (request : Request) : Str :=
  match request.forwardedFor with
  | some forwardedFor =>
    if forwardedFor = [] then FALLBACK_IDENTIFIER
    else
      let first := jsTrim ((splitChar ',' forwardedFor).headD [])
      if first = [] then FALLBACK_IDENTIFIER else stripIpv6 first
  | none => FALLBACK_IDENTIFIER

/-- Second precedence stage of `getClientIdentifier`: the `x-real-ip`
branch. -/
def resolveRealIp (request : Request) : Str :=
  match request.realIp with
  | some realIp => if realIp = [] then resolveForwarded request else stripIpv6 realIp
  | none => resolveForwarded request

/-- Embeds `getClientIdentifier` (lib/requestIdentity.ts): direct peer
address, else `x-real-ip`, else first `x-forwarded-for` entry, else the
sentinel; each returned address has the IPv4-mapped-IPv6 marker stripped. -/
def getClientIdentifier (request : Request) : Str :=
  match request.ip with
  | some directIp => if directIp = [] then resolveRealIp request else stripIpv6 directIp
  | none => resolveRealIp request

/-!  ## lib/rateLimit.ts -/

/-- Result reported by `ratelimit.limit(identifier)` (the Upstash client). -/
structure UpstashResult where
  success : Bool
  limit : Int
  reset : Int
  remaining : Int
deriving DecidableEq

/-- Environment of `checkRateLimit`: whether the Upstash client was
constructed (both env vars set), and the external store call, which may
raise (`Except.error`). -/
structure RateLimitEnv where
  configured : Bool
  limitCall : Str → Except Unit UpstashResult

/-- The value `checkRateLimit` resolves with. -/
structure RateLimitResult where
  success : Bool
  limit : Int
  reset : Int
  remaining : Int
  retryAfter : Int
deriving DecidableEq

/-- Embeds `checkRateLimit` (lib/rateLimit.ts): fail closed with
`retryAfter = 30` when the limiter is unconfigured, fail closed with
`retryAfter = 60` when the store call raises, otherwise report the store's
outcome with `retryAfter = reset ? max(floor((reset - now)/1000), 0) : 0`. -/
def checkRateLimit (env : RateLimitEnv) (request : Request) (now : Int) : RateLimitResult :=
  if !env.configured then
    { success := false, limit := 0, reset := now, remaining := 0, retryAfter := 30 }
  else
    let identifier := getClientIdentifier request
    match env.limitCall identifier with
    | .error _ =>
      { success := false, limit := 0, reset := now, remaining := 0, retryAfter := 60 }
    | .ok r =>
      { success := r.success, limit := r.limit, reset := r.reset, remaining := r.remaining,
        retryAfter := if r.reset ≠ 0 then max ((r.reset - now).fdiv 1000) 0 else 0 }

/-!  ## lib/session.ts -/

/-- The field separator of the token serializations (`TOKEN_SEPARATOR = '.'`). -/
def TOKEN_SEPARATOR : Char := '.'

/-- Modelled from the spec: `lib/sessionConstants.ts` is not under src/; the
spec fixes no concrete value for `SESSION_MAX_AGE_MS`, only that tokens
expire when `now - issuedAt > MAX_AGE`.  A fixed positive constant; every
theorem below uses it only relationally, so its value is immaterial. -/
def SESSION_MAX_AGE_MS : Int := 600000

/-- Configuration surface of the session authenticator:
`process.env.ANALYZE_SESSION_SECRET` (`none` = unset, `some []` = empty). -/
structure SessionEnv where
  sessionSecret : Option Str
deriving DecidableEq

/-- Embeds `getSessionSecret`: throws (here `Except.error`) when the secret
is unset or empty (JS falsy). -/
def getSessionSecret (env : SessionEnv) : Except Str Str :=
  match env.sessionSecret with
  | some secret =>
    if secret = [] then .error (str "ANALYZE_SESSION_SECRET is not configured")
    else .ok secret
  | none => .error (str "ANALYZE_SESSION_SECRET is not configured")

/-- Embeds `signValue`: HMAC-SHA256 of `value` under the configured secret,
base64url-encoded.  The crypto primitive is the explicit parameter `hmac`
(secret first, message second). -/
def signValue (hmac : Str → Str → Str) (env : SessionEnv) (value : Str) : Except Str Str :=
  match getSessionSecret env with
  | .error e => .error e
  | .ok secret => .ok (hmac secret value)

/-- The value `issueSessionToken` returns: header token, cookie value and
cookie expiry instant. -/
structure IssuedSession where
  token : Str
  cookieValue : Str
  expires : Int
deriving DecidableEq

/-- Embeds `issueSessionToken`: `sessionId` (the fresh `crypto.randomUUID()`)
and `issuedAt` (the `Date.now()` reading) are parameters standing for the
randomness and clock reads. -/
def issueSessionToken (hmac : Str → Str → Str) (env : SessionEnv) (request : Request)
    (sessionId : Str) (issuedAt : Int) : Except Str IssuedSession :=
  let clientId := getClientIdentifier request
  let base := sessionId ++ [TOKEN_SEPARATOR] ++ jsIntStr issuedAt
  match signValue hmac env (base ++ [TOKEN_SEPARATOR] ++ clientId) with
  | .error e => .error e
  | .ok signature =>
    .ok
      { token := base,
        cookieValue := base ++ [TOKEN_SEPARATOR] ++ signature,
        expires := issuedAt + SESSION_MAX_AGE_MS }

/-- Decoded cookie-form token. -/
structure ParsedToken where
  sessionId : Str
  issuedAt : Int
  signature : Str
deriving DecidableEq

/-- Embeds `parseParts`: `null` unless the value is truthy, splits into
exactly three fields, the middle one parses to a non-NaN integer, and the
outer two are truthy. -/
def parseParts (value : Option Str) : Option ParsedToken :=
  match value with
  | none => none
  | some v =>
    if v = [] then none
    else
      match splitChar TOKEN_SEPARATOR v with
      | [sessionId, issuedAtRaw, signature] =>
        match parseInt10 issuedAtRaw with
        | none => none
        | some issuedAt =>
          if sessionId = [] || signature = [] then none
          else some { sessionId := sessionId, issuedAt := issuedAt, signature := signature }
      | _ => none

/-- Outcome of `verifySessionToken`'s normal return:
`{valid: true}` or `{valid: false, error}`. -/
inductive VerifyOutcome where
  | valid
  | invalid (error : Str)
deriving DecidableEq

/-- Embeds `verifySessionToken`; `now` is the `Date.now()` reading and
`Except.error` models a thrown exception (the missing-secret throw escaping
from `signValue`). -/
def verifySessionToken (hmac : Str → Str → Str) (env : SessionEnv) (request : Request)
    (now : Int) : Except Str VerifyOutcome :=
  match request.sessionHeader with
  | none => .ok (.invalid (str "Missing session token"))
  | some headerValue =>
    if headerValue = [] then .ok (.invalid (str "Missing session token"))
    else
      match parseParts request.sessionCookie with
      | none => .ok (.invalid (str "Missing or invalid session cookie"))
      | some parsedCookie =>
        match splitChar TOKEN_SEPARATOR headerValue with
        | [sessionId, issuedAtRaw] =>
          match parseInt10 issuedAtRaw with
          | none => .ok (.invalid (str "Malformed session token"))
          | some issuedAt =>
            if sessionId = [] then .ok (.invalid (str "Malformed session token"))
            else if parsedCookie.sessionId ≠ sessionId ∨ parsedCookie.issuedAt ≠ issuedAt then
              .ok (.invalid (str "Session token mismatch"))
            else if now - issuedAt > SESSION_MAX_AGE_MS then
              .ok (.invalid (str "Session token expired"))
            else
              let clientId := getClientIdentifier request
              match signValue hmac env
                (parsedCookie.sessionId ++ [TOKEN_SEPARATOR] ++ jsIntStr parsedCookie.issuedAt
                  ++ [TOKEN_SEPARATOR] ++ clientId) with
              | .error e => .error e
              | .ok expectedSignature =>
                if expectedSignature ≠ parsedCookie.signature then
                  .ok (.invalid (str "Session token verification failed"))
                else
                  .ok .valid
        | _ => .ok (.invalid (str "Malformed session token"))

/-!  ## app/api/analyze/route.ts

The handler's effects are recorded as an event trace: the admission check,
the body parse (`request.json()`), and the external scoring call
(`openai.chat.completions.create`).  The parsed JSON body is modelled with
a small JS value type supporting the truthiness / `typeof` / property
accesses the validations perform. -/

/-- JS values as the body validations observe them. -/
inductive JsVal where
  | string (s : Str)
  | number (n : Int)
  | boolean (b : Bool)
  | nullval
  | undefined
  | object (dataUrl : JsVal) (name : JsVal)
deriving DecidableEq

/-- JS truthiness. -/
def jsTruthy : JsVal → Bool
  | .string s => s ≠ []
  | .number n => n ≠ 0
  | .boolean b => b
  | .nullval => false
  | .undefined => false
  | .object _ _ => true

/-- JS `typeof`. -/
def jsTypeof : JsVal → Str
  | .string _ => str "string"
  | .number _ => str "number"
  | .boolean _ => str "boolean"
  | .nullval => str "object"
  | .undefined => str "undefined"
  | .object _ _ => str "object"

/-- Property read `v?.dataUrl` (nullish values short-circuit to undefined;
non-object primitives have no such property). -/
def jsDataUrl : JsVal → JsVal
  | .object d _ => d
  | _ => .undefined

/-- Property read `v?.name`. -/
def jsPropName : JsVal → JsVal
  | .object _ n => n
  | _ => .undefined

/-- String payload of a JS value (`[]` off the string cases, which the
route only reaches behind a `typeof === 'string'` guard). -/
def jsStrVal : JsVal → Str
  | .string s => s
  | _ => []

/-- JS `.length` of a (guarded) string value. -/
def jsLength (v : JsVal) : Int := (jsStrVal v).length

/-- Destructured `await request.json()` body: absent keys are `undefined`. -/
structure Body where
  post : JsVal
  displayName : JsVal
  image : JsVal
deriving DecidableEq

/-- Observable effects of the handler, in execution order. -/
inductive Ev where
  | rlCheck
  | bodyParse
  | llm
deriving DecidableEq

/-- Status code and event trace of one handler run. -/
structure HandlerResult where
  status : Int
  events : List Ev
deriving DecidableEq

/-- The handler after a successful admission check: body parse (a parse
error is a throw, caught by the route's try/catch as a 500), the input
validations (each a 400), then the external scoring call (whose own
failure the catch turns into a 500).  Returns the status and the events
after the admission check. -/
def handleAfterAdmission (body : Except Unit Body) (llmCall : Except Unit Str) :
    Int × List Ev :=
  match body with
  | .error _ => (500, [.bodyParse])
  | .ok b =>
    if !jsTruthy b.post || jsTypeof b.post ≠ str "string" then (400, [.bodyParse])
    else if jsLength b.post > 280 then (400, [.bodyParse])
    else if !jsTruthy b.displayName || jsTypeof b.displayName ≠ str "string" then
      (400, [.bodyParse])
    else if jsTrim (jsStrVal b.displayName) = [] then (400, [.bodyParse])
    else if jsLength b.displayName > 50 then (400, [.bodyParse])
    else if jsTruthy b.image && jsTypeof b.image ≠ str "object" then (400, [.bodyParse])
    else if jsTruthy (jsDataUrl b.image) && jsTypeof (jsDataUrl b.image) ≠ str "string" then
      (400, [.bodyParse])
    else if jsTruthy (jsPropName b.image) && jsTypeof (jsPropName b.image) ≠ str "string" then
      (400, [.bodyParse])
    else if jsTruthy (jsDataUrl b.image) && jsLength (jsDataUrl b.image) > 2900000 then
      (400, [.bodyParse])
    else
      match llmCall with
      | .error _ => (500, [.bodyParse, .llm])
      | .ok _ => (200, [.bodyParse, .llm])

/-- Embeds `POST` (app/api/analyze/route.ts): the admission check runs
first; on denial the handler answers 429 without touching the body; it
never consults the session authenticator. -/
def POST (rlEnv : RateLimitEnv) (request : Request) (now : Int)
    (body : Except Unit Body) (llmCall : Except Unit Str) : HandlerResult :=
  let rateLimitResult := checkRateLimit rlEnv request now
  if !rateLimitResult.success then
    { status := 429, events := [.rlCheck] }
  else
    let rest := handleAfterAdmission body llmCall
    { status := rest.1, events := .rlCheck :: rest.2 }

/-!  ## Helper lemmas about the JS string primitives -/

theorem splitChar_ne_nil (sep : Char) (xs : Str) : splitChar sep xs ≠ [] := by
  induction xs with
  | nil => simp [splitChar]
  | cons c cs ih =>
    simp only [splitChar]
    split
    · simp
    · cases h : splitChar sep cs with
      | nil => simp
      | cons h t => simp

theorem splitChar_no_sep (sep : Char) (xs : Str) (hx : sep ∉ xs) :
    splitChar sep xs = [xs] := by
  induction xs with
  | nil => rfl
  | cons c cs ih =>
    simp only [List.mem_cons, not_or] at hx
    simp only [splitChar]
    rw [if_neg (fun h => hx.1 h.symm), ih hx.2]

theorem splitChar_append (sep : Char) (xs ys : Str) (hx : sep ∉ xs) :
    splitChar sep (xs ++ sep :: ys) = xs :: splitChar sep ys := by
  induction xs with
  | nil => simp [splitChar]
  | cons c cs ih =>
    simp only [List.mem_cons, not_or] at hx
    have hne : ¬c = sep := fun h => hx.1 h.symm
    show splitChar sep (c :: (cs ++ sep :: ys)) = (c :: cs) :: splitChar sep ys
    simp [splitChar, hne, ih hx.2]

theorem digit_char_toNat {m : Nat} (hm : m < 10) : (Char.ofNat (48 + m)).toNat = 48 + m := by
  interval_cases m <;> decide

theorem digit_char_isDigit {m : Nat} (hm : m < 10) : isDigitChar (Char.ofNat (48 + m)) = true := by
  interval_cases m <;> decide

theorem digit_char_ne_sep {m : Nat} (hm : m < 10) : Char.ofNat (48 + m) ≠ TOKEN_SEPARATOR := by
  interval_cases m <;> decide

theorem isDigitChar_not_ws {c : Char} (h : isDigitChar c = true) : jsWhitespace c = false := by
  simp only [isDigitChar, Bool.and_eq_true, decide_eq_true_eq] at h
  simp only [jsWhitespace, Bool.or_eq_false_iff, decide_eq_false_iff_not]
  omega

theorem isDigitChar_ne_neg {c : Char} (h : isDigitChar c = true) : c ≠ '-' := by
  rintro rfl
  simp [isDigitChar] at h

theorem isDigitChar_ne_pos {c : Char} (h : isDigitChar c = true) : c ≠ '+' := by
  rintro rfl
  simp [isDigitChar] at h

theorem isDigitChar_ne_dot {c : Char} (h : isDigitChar c = true) : c ≠ TOKEN_SEPARATOR := by
  rintro rfl
  simp [isDigitChar, TOKEN_SEPARATOR] at h

theorem natDecimalAux_spec (fuel : Nat) :
    ∀ n, n < fuel →
      natDecimalAux fuel n ≠ [] ∧
      (∀ c ∈ natDecimalAux fuel n, isDigitChar c = true) ∧
      readDigits (natDecimalAux fuel n) = n := by
  induction fuel with
  | zero => intro n hn; omega
  | succ fuel ih =>
    intro n hn
    by_cases h10 : n < 10
    · refine ⟨by simp [natDecimalAux, h10], ?_, ?_⟩
      · intro c hc
        simp only [natDecimalAux, if_pos h10, List.mem_singleton] at hc
        subst hc
        exact digit_char_isDigit h10
      · simp only [natDecimalAux, if_pos h10, readDigits, List.foldl_cons, List.foldl_nil]
        rw [digit_char_toNat h10]
        omega
    · have hrec : n / 10 < fuel := by omega
      obtain ⟨hne, hdig, hval⟩ := ih (n / 10) hrec
      have hmod : n % 10 < 10 := Nat.mod_lt _ (by omega)
      simp only [natDecimalAux, if_neg h10]
      refine ⟨by simp, ?_, ?_⟩
      · intro c hc
        rcases List.mem_append.mp hc with h | h
        · exact hdig c h
        · simp only [List.mem_singleton] at h
          subst h
          exact digit_char_isDigit hmod
      · simp only [readDigits] at hval ⊢
        rw [List.foldl_append, hval]
        simp only [List.foldl_cons, List.foldl_nil]
        rw [digit_char_toNat hmod]
        omega

theorem natDecimal_ne_nil (n : Nat) : natDecimal n ≠ [] :=
  (natDecimalAux_spec (n + 1) n (by omega)).1

theorem natDecimal_digits (n : Nat) : ∀ c ∈ natDecimal n, isDigitChar c = true :=
  (natDecimalAux_spec (n + 1) n (by omega)).2.1

theorem readDigits_natDecimal (n : Nat) : readDigits (natDecimal n) = n :=
  (natDecimalAux_spec (n + 1) n (by omega)).2.2

theorem takeWhile_all {p : Char → Bool} {l : Str} (h : ∀ c ∈ l, p c = true) :
    l.takeWhile p = l := by
  induction l with
  | nil => rfl
  | cons c cs ih =>
    simp [List.takeWhile_cons, h c (by simp), ih (fun x hx => h x (by simp [hx]))]

theorem dropWhile_head_false {p : Char → Bool} {c : Char} {cs : Str} (h : p c = false) :
    (c :: cs).dropWhile p = c :: cs := by
  simp [List.dropWhile_cons, h]

theorem jsIntStr_not_sep (i : Int) : TOKEN_SEPARATOR ∉ jsIntStr i := by
  intro hmem
  simp only [jsIntStr] at hmem
  split at hmem
  · rcases List.mem_cons.mp hmem with h | h
    · exact absurd h.symm (by decide)
    · exact absurd rfl (isDigitChar_ne_dot (natDecimal_digits _ _ h))
  · exact absurd rfl (isDigitChar_ne_dot (natDecimal_digits _ _ hmem))

theorem jsIntStr_ne_nil (i : Int) : jsIntStr i ≠ [] := by
  simp only [jsIntStr]
  split
  · simp
  · exact natDecimal_ne_nil _

theorem parseInt10_natDecimal (n : Nat) : parseInt10 (natDecimal n) = some (n : Int) := by
  obtain ⟨c, cs, hcc⟩ := List.exists_cons_of_ne_nil (natDecimal_ne_nil n)
  have hdig : ∀ x ∈ natDecimal n, isDigitChar x = true := natDecimal_digits n
  have hc : isDigitChar c = true := hdig c (by rw [hcc]; simp)
  have hdw : (natDecimal n).dropWhile jsWhitespace = c :: cs := by
    rw [hcc]; exact dropWhile_head_false (isDigitChar_not_ws hc)
  have htw : (c :: cs).takeWhile isDigitChar = c :: cs := by
    rw [← hcc]; exact takeWhile_all hdig
  have hrd : readDigits (c :: cs) = n := by rw [← hcc]; exact readDigits_natDecimal n
  simp [parseInt10, hdw, isDigitChar_ne_neg hc, isDigitChar_ne_pos hc, htw, hrd]

theorem parseInt10_jsIntStr (i : Int) : parseInt10 (jsIntStr i) = some i := by
  by_cases hneg : i < 0
  · obtain ⟨c, cs, hcc⟩ := List.exists_cons_of_ne_nil (natDecimal_ne_nil i.natAbs)
    have hdig : ∀ x ∈ natDecimal i.natAbs, isDigitChar x = true := natDecimal_digits _
    have htw : (natDecimal i.natAbs).takeWhile isDigitChar = c :: cs := by
      rw [takeWhile_all hdig, hcc]
    have hrd : readDigits (c :: cs) = i.natAbs := by rw [← hcc]; exact readDigits_natDecimal _
    have hdw : ('-' :: natDecimal i.natAbs).dropWhile jsWhitespace =
        '-' :: natDecimal i.natAbs := dropWhile_head_false (by decide)
    have hi : -(i.natAbs : Int) = i := by omega
    have habs : -|i| = i := by rw [abs_of_neg hneg]; ring
    simp [jsIntStr, if_pos hneg, parseInt10, hdw, htw, hrd, hi, habs]
  · have hi : ((i.toNat : Nat) : Int) = i := by omega
    simp [jsIntStr, if_neg hneg, parseInt10_natDecimal, hi]

/-!  ## Claims -/

/-- C2: for every admission check, an unconfigured counter store yields
`allowed = false` with `retryAfterSeconds = 30`, a store call that raises
yields `allowed = false` with `retryAfterSeconds = 60`, and the gate never
returns `allowed = true` unless the configured store call succeeded. -/
theorem c2_rate_limiter_fails_closed (env : RateLimitEnv) (request : Request) (now : Int) :
    (env.configured = false →
      checkRateLimit env request now =
        { success := false, limit := 0, reset := now, remaining := 0, retryAfter := 30 }) ∧
    (env.configured = true →
      ∀ e, env.limitCall (getClientIdentifier request) = .error e →
        checkRateLimit env request now =
          { success := false, limit := 0, reset := now, remaining := 0, retryAfter := 60 }) ∧
    ((checkRateLimit env request now).success = true →
      env.configured = true ∧
        ∃ r, env.limitCall (getClientIdentifier request) = .ok r ∧ r.success = true) := by
  refine ⟨?_, ?_, ?_⟩
  · intro h
    simp [checkRateLimit, h]
  · intro h e he
    simp [checkRateLimit, h, he]
  · intro h
    by_cases hc : env.configured
    · refine ⟨hc, ?_⟩
      cases he : env.limitCall (getClientIdentifier request) with
      | error e => simp [checkRateLimit, hc, he] at h
      | ok r =>
        refine ⟨r, rfl, ?_⟩
        simpa [checkRateLimit, hc, he] using h
    · simp [checkRateLimit, hc] at h

/-- Witness for C2 at concrete inputs: both fail-closed branches. -/
theorem c2_rate_limiter_fails_closed_witness :
    checkRateLimit ⟨false, fun _ => .ok ⟨true, 1, 0, 0⟩⟩
        ⟨none, none, none, none, none⟩ 0 =
      { success := false, limit := 0, reset := 0, remaining := 0, retryAfter := 30 } ∧
    checkRateLimit ⟨true, fun _ => .error ()⟩
        ⟨none, none, none, none, none⟩ 0 =
      { success := false, limit := 0, reset := 0, remaining := 0, retryAfter := 60 } :=
  ⟨(c2_rate_limiter_fails_closed _ _ _).1 rfl,
   (c2_rate_limiter_fails_closed _ _ _).2.1 rfl () rfl⟩

/-- C7: `getClientIdentifier` is total and resolves, first match wins, the
truthy direct peer address, else the truthy real-IP header, else the
trimmed first comma-separated entry of the forwarded chain, else the
sentinel `"unknown"`; each address is returned with a leading
IPv4-mapped-IPv6 marker stripped.  (A present-but-empty value is falsy in
JS and yields nothing, so it falls through.) -/
theorem c7_client_identifier_precedence (request : Request) :
    (∀ s, request.ip = some s → s ≠ [] →
      getClientIdentifier request = stripIpv6 s) ∧
    ((request.ip = none ∨ request.ip = some []) →
      ∀ s, request.realIp = some s → s ≠ [] →
        getClientIdentifier request = stripIpv6 s) ∧
    ((request.ip = none ∨ request.ip = some []) →
      (request.realIp = none ∨ request.realIp = some []) →
      ∀ s, request.forwardedFor = some s → s ≠ [] →
        (jsTrim ((splitChar ',' s).headD []) ≠ [] →
          getClientIdentifier request = stripIpv6 (jsTrim ((splitChar ',' s).headD []))) ∧
        (jsTrim ((splitChar ',' s).headD []) = [] →
          getClientIdentifier request = FALLBACK_IDENTIFIER)) ∧
    ((request.ip = none ∨ request.ip = some []) →
      (request.realIp = none ∨ request.realIp = some []) →
      (request.forwardedFor = none ∨ request.forwardedFor = some []) →
      getClientIdentifier request = FALLBACK_IDENTIFIER) := by
  refine ⟨?_, ?_, ?_, ?_⟩
  · rintro s hs hne
    simp [getClientIdentifier, hs, hne]
  · rintro (h | h) s hs hne <;>
      simp [getClientIdentifier, resolveRealIp, h, hs, hne]
  · rintro (h | h) (h2 | h2) s hs hne <;>
    · constructor
      · intro ht
        simp only [getClientIdentifier, resolveRealIp, resolveForwarded, h, h2, hs,
          eq_self_iff_true, if_true]
        rw [if_neg hne, if_neg ht]
      · intro ht
        simp only [getClientIdentifier, resolveRealIp, resolveForwarded, h, h2, hs,
          eq_self_iff_true, if_true]
        rw [if_neg hne, if_pos ht]
  · rintro (h | h) (h2 | h2) (h3 | h3) <;>
      simp [getClientIdentifier, resolveRealIp, resolveForwarded, h, h2, h3]

/-- Witness for C7 at a concrete request: a dual-stack direct peer address
is collapsed to its IPv4 form. -/
theorem c7_client_identifier_precedence_witness :
    getClientIdentifier ⟨some (str "::ffff:10.0.0.1"), none, none, none, none⟩ =
      str "10.0.0.1" := by
  have h := (c7_client_identifier_precedence
    ⟨some (str "::ffff:10.0.0.1"), none, none, none, none⟩).1
    (str "::ffff:10.0.0.1") rfl (by decide)
  rw [h]
  decide

/-- C8: with the signing secret absent, `issueSessionToken` propagates the
configuration error and returns no token of any kind. -/
theorem c8_issue_fails_without_secret (hmac : Str → Str → Str) (request : Request)
    (sessionId : Str) (issuedAt : Int) :
    issueSessionToken hmac ⟨none⟩ request sessionId issuedAt =
      .error (str "ANALYZE_SESSION_SECRET is not configured") := rfl

/-- C6: when header and cookie both decode but disagree on `sessionId` or
`issuedAt`, verification fails with the mismatch reason; the result is the
same for every MAC function and every secret configuration, which captures
that the signature is never computed on this path (in particular, the
missing-secret throw cannot occur here). -/
theorem c6_mismatch_before_mac (hmac : Str → Str → Str) (env : SessionEnv)
    (request : Request) (now : Int) (headerValue hsid hraw : Str) (hIss : Int)
    (pc : ParsedToken)
    (hhv : request.sessionHeader = some headerValue) (hne : headerValue ≠ [])
    (hck : parseParts request.sessionCookie = some pc)
    (hsplit : splitChar TOKEN_SEPARATOR headerValue = [hsid, hraw])
    (hparse : parseInt10 hraw = some hIss) (hsidne : hsid ≠ [])
    (hdiff : pc.sessionId ≠ hsid ∨ pc.issuedAt ≠ hIss) :
    verifySessionToken hmac env request now =
      .ok (.invalid (str "Session token mismatch")) := by
  simp only [verifySessionToken, hhv, hck, hsplit, hparse]
  rw [if_neg hne, if_neg hsidne, if_pos hdiff]

/-- Witness for C6 at concrete inputs: header `"a.5"` against cookie
`"b.5.x"`, with two different MAC functions and secret configurations
giving the same mismatch rejection. -/
theorem c6_mismatch_before_mac_witness :
    verifySessionToken (fun _ m => m) ⟨some (str "k")⟩
        ⟨none, none, none, some (str "a.5"), some (str "b.5.x")⟩ 0 =
      .ok (.invalid (str "Session token mismatch")) ∧
    verifySessionToken (fun _ _ => []) ⟨none⟩
        ⟨none, none, none, some (str "a.5"), some (str "b.5.x")⟩ 0 =
      .ok (.invalid (str "Session token mismatch")) :=
  ⟨c6_mismatch_before_mac _ _ _ 0 (str "a.5") (str "a") (str "5") 5
      ⟨str "b", 5, str "x"⟩ rfl (by decide) (by decide) (by decide) (by decide)
      (by decide) (Or.inl (by decide)),
   c6_mismatch_before_mac _ _ _ 0 (str "a.5") (str "a") (str "5") 5
      ⟨str "b", 5, str "x"⟩ rfl (by decide) (by decide) (by decide) (by decide)
      (by decide) (Or.inl (by decide))⟩

/-- C5: for an agreeing header/cookie pair, when `now - issuedAt` strictly
exceeds `SESSION_MAX_AGE_MS` verification fails with the expiry reason —
for every MAC function and secret configuration, hence regardless of
signature correctness — and at exactly `now - issuedAt = SESSION_MAX_AGE_MS`
the token is never rejected as expired (the strict inequality). -/
theorem c5_expiry_strict (hmac : Str → Str → Str) (env : SessionEnv)
    (request : Request) (now : Int) (headerValue hsid hraw : Str) (hIss : Int)
    (pc : ParsedToken)
    (hhv : request.sessionHeader = some headerValue) (hne : headerValue ≠ [])
    (hck : parseParts request.sessionCookie = some pc)
    (hsplit : splitChar TOKEN_SEPARATOR headerValue = [hsid, hraw])
    (hparse : parseInt10 hraw = some hIss) (hsidne : hsid ≠ [])
    (hsid_eq : pc.sessionId = hsid) (hiss_eq : pc.issuedAt = hIss) :
    (now - hIss > SESSION_MAX_AGE_MS →
      verifySessionToken hmac env request now =
        .ok (.invalid (str "Session token expired"))) ∧
    (now - hIss = SESSION_MAX_AGE_MS →
      verifySessionToken hmac env request now ≠
        .ok (.invalid (str "Session token expired"))) := by
  have hmm : ¬(pc.sessionId ≠ hsid ∨ pc.issuedAt ≠ hIss) := by
    push_neg
    exact ⟨hsid_eq, hiss_eq⟩
  constructor
  · intro hexp
    simp only [verifySessionToken, hhv, hck, hsplit, hparse]
    rw [if_neg hne, if_neg hsidne, if_neg hmm, if_pos hexp]
  · intro heq
    have hexp : ¬(now - hIss > SESSION_MAX_AGE_MS) := by omega
    simp only [verifySessionToken, hhv, hck, hsplit, hparse]
    rw [if_neg hne, if_neg hsidne, if_neg hmm, if_neg hexp]
    cases hsv : signValue hmac env (pc.sessionId ++ [TOKEN_SEPARATOR] ++
        jsIntStr pc.issuedAt ++ [TOKEN_SEPARATOR] ++ getClientIdentifier request) with
    | error e =>
      exact fun h => Except.noConfusion h
    | ok expectedSignature =>
      intro h
      simp only [] at h
      by_cases hcmp : expectedSignature = pc.signature
      · rw [if_neg (fun hx => hx hcmp)] at h
        exact VerifyOutcome.noConfusion (Except.ok.inj h)
      · rw [if_pos hcmp] at h
        exact absurd (VerifyOutcome.invalid.inj (Except.ok.inj h)) (by decide)

/-- Witness for C5 at concrete inputs: header `"a.5"`, cookie `"a.5.x"`;
expired one millisecond past the limit, not expired at the exact limit. -/
theorem c5_expiry_strict_witness :
    verifySessionToken (fun _ m => m) ⟨some (str "k")⟩
        ⟨none, none, none, some (str "a.5"), some (str "a.5.x")⟩
        (SESSION_MAX_AGE_MS + 6) =
      .ok (.invalid (str "Session token expired")) ∧
    verifySessionToken (fun _ m => m) ⟨some (str "k")⟩
        ⟨none, none, none, some (str "a.5"), some (str "a.5.x")⟩
        (SESSION_MAX_AGE_MS + 5) ≠
      .ok (.invalid (str "Session token expired")) :=
  ⟨(c5_expiry_strict _ _ _ (SESSION_MAX_AGE_MS + 6) (str "a.5") (str "a") (str "5") 5
      ⟨str "a", 5, str "x"⟩ rfl (by decide) (by decide) (by decide) (by decide)
      (by decide) (by decide) (by decide)).1 (by omega),
   (c5_expiry_strict _ _ _ (SESSION_MAX_AGE_MS + 5) (str "a.5") (str "a") (str "5") 5
      ⟨str "a", 5, str "x"⟩ rfl (by decide) (by decide) (by decide) (by decide)
      (by decide) (by decide) (by decide)).2 (by omega)⟩

/-- C10: with the signing secret unconfigured, a header/cookie pair that
passes the missing-header, cookie-decode, header-decode, mismatch and
expiry checks makes `verifySessionToken` throw (an `Except.error`, the
exception raised while recomputing the expected signature) instead of
returning a `{valid: false}` rejection. -/
theorem c10_verify_throws_without_secret (hmac : Str → Str → Str)
    (request : Request) (now : Int) (headerValue hsid hraw : Str) (hIss : Int)
    (pc : ParsedToken)
    (hhv : request.sessionHeader = some headerValue) (hne : headerValue ≠ [])
    (hck : parseParts request.sessionCookie = some pc)
    (hsplit : splitChar TOKEN_SEPARATOR headerValue = [hsid, hraw])
    (hparse : parseInt10 hraw = some hIss) (hsidne : hsid ≠ [])
    (hsid_eq : pc.sessionId = hsid) (hiss_eq : pc.issuedAt = hIss)
    (hfresh : ¬(now - hIss > SESSION_MAX_AGE_MS)) :
    verifySessionToken hmac ⟨none⟩ request now =
      .error (str "ANALYZE_SESSION_SECRET is not configured") := by
  have hmm : ¬(pc.sessionId ≠ hsid ∨ pc.issuedAt ≠ hIss) := by
    push_neg
    exact ⟨hsid_eq, hiss_eq⟩
  simp only [verifySessionToken, hhv, hck, hsplit, hparse]
  rw [if_neg hne, if_neg hsidne, if_neg hmm, if_neg hfresh]
  simp [signValue, getSessionSecret]

/-- Splitting the header form `sessionId.issuedAt` recovers its fields. -/
theorem splitChar_token_header (sid : Str) (i : Int) (hdot : TOKEN_SEPARATOR ∉ sid) :
    splitChar TOKEN_SEPARATOR (sid ++ [TOKEN_SEPARATOR] ++ jsIntStr i) = [sid, jsIntStr i] := by
  have h1 : sid ++ [TOKEN_SEPARATOR] ++ jsIntStr i = sid ++ TOKEN_SEPARATOR :: jsIntStr i := by
    simp
  rw [h1, splitChar_append _ _ _ hdot, splitChar_no_sep _ _ (jsIntStr_not_sep i)]

/-- Splitting the cookie form `sessionId.issuedAt.signature` recovers its
fields. -/
theorem splitChar_token_cookie (sid sig : Str) (i : Int) (hdot : TOKEN_SEPARATOR ∉ sid)
    (hsigdot : TOKEN_SEPARATOR ∉ sig) :
    splitChar TOKEN_SEPARATOR (sid ++ [TOKEN_SEPARATOR] ++ jsIntStr i ++ [TOKEN_SEPARATOR] ++ sig) =
      [sid, jsIntStr i, sig] := by
  have h1 : sid ++ [TOKEN_SEPARATOR] ++ jsIntStr i ++ [TOKEN_SEPARATOR] ++ sig =
      sid ++ TOKEN_SEPARATOR :: (jsIntStr i ++ TOKEN_SEPARATOR :: sig) := by simp
  rw [h1, splitChar_append _ _ _ hdot, splitChar_append _ _ _ (jsIntStr_not_sep i),
    splitChar_no_sep _ _ hsigdot]

/-- Decoding an encoded cookie-form token recovers the structured token. -/
theorem parseParts_encoded (sid sig : Str) (i : Int) (hsid : sid ≠ [])
    (hdot : TOKEN_SEPARATOR ∉ sid) (hsig : sig ≠ []) (hsigdot : TOKEN_SEPARATOR ∉ sig) :
    parseParts (some (sid ++ [TOKEN_SEPARATOR] ++ jsIntStr i ++ [TOKEN_SEPARATOR] ++ sig)) =
      some ⟨sid, i, sig⟩ := by
  have hne : ¬(sid ++ [TOKEN_SEPARATOR] ++ jsIntStr i ++ [TOKEN_SEPARATOR] ++ sig = []) := by
    simp
  simp only [parseParts]
  rw [if_neg hne, splitChar_token_cookie sid sig i hdot hsigdot]
  simp only [parseInt10_jsIntStr]
  simp [hsid, hsig]

/-- An agreeing, unexpired, well-formed header/cookie pair drives
`verifySessionToken` down to the signature recomputation and comparison. -/
theorem verify_reaches_signature (hmac : Str → Str → Str) (env : SessionEnv)
    (request : Request) (now : Int) (sid sig : Str) (t : Int)
    (hhdr : request.sessionHeader = some (sid ++ [TOKEN_SEPARATOR] ++ jsIntStr t))
    (hck : request.sessionCookie =
      some (sid ++ [TOKEN_SEPARATOR] ++ jsIntStr t ++ [TOKEN_SEPARATOR] ++ sig))
    (hsid_ne : sid ≠ []) (hsid_dot : TOKEN_SEPARATOR ∉ sid)
    (hsig_ne : sig ≠ []) (hsig_dot : TOKEN_SEPARATOR ∉ sig)
    (hage : ¬(now - t > SESSION_MAX_AGE_MS)) :
    verifySessionToken hmac env request now =
      match signValue hmac env
        (sid ++ [TOKEN_SEPARATOR] ++ jsIntStr t ++ [TOKEN_SEPARATOR]
          ++ getClientIdentifier request) with
      | .error e => .error e
      | .ok expectedSignature =>
        if expectedSignature ≠ sig then
          .ok (.invalid (str "Session token verification failed"))
        else
          .ok .valid := by
  have hhdr_ne : ¬(sid ++ [TOKEN_SEPARATOR] ++ jsIntStr t = []) := by simp
  have hmm : ¬(sid ≠ sid ∨ t ≠ t) := by simp
  simp only [verifySessionToken]
  rw [hhdr]
  simp only []
  rw [if_neg hhdr_ne, hck, parseParts_encoded sid sig t hsid_ne hsid_dot hsig_ne hsig_dot]
  simp only []
  rw [splitChar_token_header sid t hsid_dot]
  simp only [parseInt10_jsIntStr]
  rw [if_neg hsid_ne, if_neg hmm, if_neg hage]

/-- Witness for C10 at concrete inputs. -/
theorem c10_verify_throws_without_secret_witness :
    verifySessionToken (fun _ m => m) ⟨none⟩
        ⟨none, none, none, some (str "a.5"), some (str "a.5.x")⟩ 6 =
      .error (str "ANALYZE_SESSION_SECRET is not configured") :=
  c10_verify_throws_without_secret _ _ 6 (str "a.5") (str "a") (str "5") 5
    ⟨str "a", 5, str "x"⟩ rfl (by decide) (by decide) (by decide) (by decide)
    (by decide) (by decide) (by decide) (by decide)

/-- C3: round trip — a token issued for a request, presented unchanged as
header and cookie by a request that resolves to the same ClientIdentity,
verified while `now - issuedAt ≤ SESSION_MAX_AGE_MS`, is accepted.  The
hypotheses on `sessionId` and on the MAC output model `crypto.randomUUID()`
output (nonempty, never containing `'.'`) and a base64url digest (nonempty,
alphabet without `'.'`). -/
theorem c3_issue_verify_roundtrip (hmac : Str → Str → Str) (env : SessionEnv)
    (request reqVerify : Request) (secret sessionId : Str) (issuedAt now : Int)
    (issued : IssuedSession)
    (hsecret : env.sessionSecret = some secret) (hsec_ne : secret ≠ [])
    (hsid_ne : sessionId ≠ []) (hsid_dot : TOKEN_SEPARATOR ∉ sessionId)
    (hsig_ne : hmac secret (sessionId ++ [TOKEN_SEPARATOR] ++ jsIntStr issuedAt
      ++ [TOKEN_SEPARATOR] ++ getClientIdentifier request) ≠ [])
    (hsig_dot : TOKEN_SEPARATOR ∉ hmac secret (sessionId ++ [TOKEN_SEPARATOR]
      ++ jsIntStr issuedAt ++ [TOKEN_SEPARATOR] ++ getClientIdentifier request))
    (hissue : issueSessionToken hmac env request sessionId issuedAt = .ok issued)
    (hhdr : reqVerify.sessionHeader = some issued.token)
    (hck : reqVerify.sessionCookie = some issued.cookieValue)
    (hsame : getClientIdentifier reqVerify = getClientIdentifier request)
    (hage : now - issuedAt ≤ SESSION_MAX_AGE_MS) :
    verifySessionToken hmac env reqVerify now = .ok .valid := by
  have hgs : getSessionSecret env = .ok secret := by
    simp [getSessionSecret, hsecret, hsec_ne]
  have hiss : issueSessionToken hmac env request sessionId issuedAt =
      .ok ⟨sessionId ++ [TOKEN_SEPARATOR] ++ jsIntStr issuedAt,
        sessionId ++ [TOKEN_SEPARATOR] ++ jsIntStr issuedAt ++ [TOKEN_SEPARATOR]
          ++ hmac secret (sessionId ++ [TOKEN_SEPARATOR] ++ jsIntStr issuedAt
            ++ [TOKEN_SEPARATOR] ++ getClientIdentifier request),
        issuedAt + SESSION_MAX_AGE_MS⟩ := by
    simp only [issueSessionToken, signValue, hgs]
  rw [hiss] at hissue
  injection hissue with hi
  subst hi
  simp only [] at hhdr hck
  rw [verify_reaches_signature hmac env reqVerify now sessionId _ issuedAt hhdr hck
    hsid_ne hsid_dot hsig_ne hsig_dot (by omega), hsame]
  simp only [signValue, hgs]
  rw [if_neg (fun h => h rfl)]

/-- Witness for C3 at concrete inputs: issue at `t = 7` for identity
`1.2.3.4`, verify the returned pair at `now = 10` from the same identity. -/
theorem c3_issue_verify_roundtrip_witness :
    verifySessionToken (fun _ m => 'S' :: m.filter (fun ch => ch ≠ '.'))
        ⟨some (str "k")⟩
        ⟨some (str "1.2.3.4"), none, none, some (str "abc123.7"),
          some (str "abc123.7.Sabc12371234")⟩ 10 = .ok .valid :=
  c3_issue_verify_roundtrip (fun _ m => 'S' :: m.filter (fun ch => ch ≠ '.'))
    ⟨some (str "k")⟩
    ⟨some (str "1.2.3.4"), none, none, none, none⟩
    ⟨some (str "1.2.3.4"), none, none, some (str "abc123.7"),
      some (str "abc123.7.Sabc12371234")⟩
    (str "k") (str "abc123") 7 10
    ⟨str "abc123.7", str "abc123.7.Sabc12371234", 600007⟩
    rfl (by decide) (by decide) (by decide) (by decide) (by decide)
    (by rfl) (by rfl) (by rfl) (by rfl) (by decide)

/-- C4: a token issued for one ClientIdentity, replayed with agreeing
header and cookie within `SESSION_MAX_AGE_MS` by a request resolving to a
different ClientIdentity, is rejected with the signature-mismatch
(integrity) reason.  `hdiff` is the collision-freedom of the MAC at the two
messages, which differ exactly in the bound identity. -/
theorem c4_replay_rejected (hmac : Str → Str → Str) (env : SessionEnv)
    (request reqVerify : Request) (secret sessionId : Str) (issuedAt now : Int)
    (issued : IssuedSession)
    (hsecret : env.sessionSecret = some secret) (hsec_ne : secret ≠ [])
    (hsid_ne : sessionId ≠ []) (hsid_dot : TOKEN_SEPARATOR ∉ sessionId)
    (hsig_ne : hmac secret (sessionId ++ [TOKEN_SEPARATOR] ++ jsIntStr issuedAt
      ++ [TOKEN_SEPARATOR] ++ getClientIdentifier request) ≠ [])
    (hsig_dot : TOKEN_SEPARATOR ∉ hmac secret (sessionId ++ [TOKEN_SEPARATOR]
      ++ jsIntStr issuedAt ++ [TOKEN_SEPARATOR] ++ getClientIdentifier request))
    (hissue : issueSessionToken hmac env request sessionId issuedAt = .ok issued)
    (hhdr : reqVerify.sessionHeader = some issued.token)
    (hck : reqVerify.sessionCookie = some issued.cookieValue)
    (_hid : getClientIdentifier reqVerify ≠ getClientIdentifier request)
    (hdiff : hmac secret (sessionId ++ [TOKEN_SEPARATOR] ++ jsIntStr issuedAt
        ++ [TOKEN_SEPARATOR] ++ getClientIdentifier reqVerify) ≠
      hmac secret (sessionId ++ [TOKEN_SEPARATOR] ++ jsIntStr issuedAt
        ++ [TOKEN_SEPARATOR] ++ getClientIdentifier request))
    (hage : now - issuedAt ≤ SESSION_MAX_AGE_MS) :
    verifySessionToken hmac env reqVerify now =
      .ok (.invalid (str "Session token verification failed")) := by
  have hgs : getSessionSecret env = .ok secret := by
    simp [getSessionSecret, hsecret, hsec_ne]
  have hiss : issueSessionToken hmac env request sessionId issuedAt =
      .ok ⟨sessionId ++ [TOKEN_SEPARATOR] ++ jsIntStr issuedAt,
        sessionId ++ [TOKEN_SEPARATOR] ++ jsIntStr issuedAt ++ [TOKEN_SEPARATOR]
          ++ hmac secret (sessionId ++ [TOKEN_SEPARATOR] ++ jsIntStr issuedAt
            ++ [TOKEN_SEPARATOR] ++ getClientIdentifier request),
        issuedAt + SESSION_MAX_AGE_MS⟩ := by
    simp only [issueSessionToken, signValue, hgs]
  rw [hiss] at hissue
  injection hissue with hi
  subst hi
  simp only [] at hhdr hck
  rw [verify_reaches_signature hmac env reqVerify now sessionId _ issuedAt hhdr hck
    hsid_ne hsid_dot hsig_ne hsig_dot (by omega)]
  simp only [signValue, hgs]
  rw [if_pos hdiff]

/-- Witness for C4 at concrete inputs: the token issued for `1.2.3.4` is
replayed by a request resolving to `5.6.7.8` and rejected. -/
theorem c4_replay_rejected_witness :
    verifySessionToken (fun _ m => 'S' :: m.filter (fun ch => ch ≠ '.'))
        ⟨some (str "k")⟩
        ⟨some (str "5.6.7.8"), none, none, some (str "abc123.7"),
          some (str "abc123.7.Sabc12371234")⟩ 10 =
      .ok (.invalid (str "Session token verification failed")) :=
  c4_replay_rejected (fun _ m => 'S' :: m.filter (fun ch => ch ≠ '.'))
    ⟨some (str "k")⟩
    ⟨some (str "1.2.3.4"), none, none, none, none⟩
    ⟨some (str "5.6.7.8"), none, none, some (str "abc123.7"),
      some (str "abc123.7.Sabc12371234")⟩
    (str "k") (str "abc123") 7 10
    ⟨str "abc123.7", str "abc123.7.Sabc12371234", 600007⟩
    rfl (by decide) (by decide) (by decide) (by decide) (by decide)
    (by rfl) (by rfl) (by rfl) (by decide) (by decide) (by decide)

set_option maxHeartbeats 1000000 in
/-- After admission, a 400 rejection happens during validation, before the
external scoring call. -/
theorem handleAfterAdmission_400 (body : Except Unit Body) (llmCall : Except Unit Str)
    (h : (handleAfterAdmission body llmCall).1 = 400) :
    (handleAfterAdmission body llmCall).2 = [.bodyParse] := by
  cases body with
  | error e => rfl
  | ok b =>
    revert h
    simp only [handleAfterAdmission]
    split_ifs <;> intro h <;> first
      | rfl
      | (cases llmCall <;> simp_all)

/-- C9: in the protected handler, the admission check runs before the body
is parsed or validated: every run's trace starts with the admission check,
and whenever the handler rejects with status 400 (invalid body), the
configured store call had already been made and had granted the permit —
so the permit of the 30-second window is consumed even by requests later
rejected as invalid. -/
theorem c9_admission_before_body (rlEnv : RateLimitEnv) (request : Request) (now : Int)
    (body : Except Unit Body) (llmCall : Except Unit Str) :
    (POST rlEnv request now body llmCall).events.head? = some .rlCheck ∧
    ((POST rlEnv request now body llmCall).status = 400 →
      rlEnv.configured = true ∧
      (∃ r, rlEnv.limitCall (getClientIdentifier request) = .ok r ∧ r.success = true) ∧
      (POST rlEnv request now body llmCall).events = [.rlCheck, .bodyParse]) := by
  constructor
  · by_cases h : (checkRateLimit rlEnv request now).success <;> simp [POST, h]
  · intro h400
    by_cases h : (checkRateLimit rlEnv request now).success
    · have hsucc := h
      by_cases hc : rlEnv.configured
      · refine ⟨hc, ?_, ?_⟩
        · cases he : rlEnv.limitCall (getClientIdentifier request) with
          | error e => simp [checkRateLimit, hc, he] at hsucc
          | ok r =>
            refine ⟨r, rfl, ?_⟩
            simpa [checkRateLimit, hc, he] using hsucc
        · have hst : (handleAfterAdmission body llmCall).1 = 400 := by
            simpa [POST, h] using h400
          simp [POST, h, handleAfterAdmission_400 body llmCall hst]
      · simp [checkRateLimit, hc] at hsucc
    · simp [POST, h] at h400

/-- Witness for C9 at concrete inputs: a request whose body lacks `post`
is rejected 400, yet the configured store granted (and so consumed) the
permit, and the scoring call never appears in the trace. -/
theorem c9_admission_before_body_witness :
    RateLimitEnv.configured ⟨true, fun _ => .ok ⟨true, 1, 0, 0⟩⟩ = true ∧
    (∃ r, RateLimitEnv.limitCall ⟨true, fun _ => .ok ⟨true, 1, 0, 0⟩⟩
        (getClientIdentifier ⟨some (str "1.2.3.4"), none, none, none, none⟩) = .ok r ∧
      r.success = true) ∧
    (POST ⟨true, fun _ => .ok ⟨true, 1, 0, 0⟩⟩
        ⟨some (str "1.2.3.4"), none, none, none, none⟩ 0
        (.ok ⟨.undefined, .string (str "Bob"), .nullval⟩)
        (.ok (str "unused"))).events = [.rlCheck, .bodyParse] :=
  (c9_admission_before_body ⟨true, fun _ => .ok ⟨true, 1, 0, 0⟩⟩
    ⟨some (str "1.2.3.4"), none, none, none, none⟩ 0
    (.ok ⟨.undefined, .string (str "Bob"), .nullval⟩)
    (.ok (str "unused"))).2 rfl

/-- C1 (code bug): the spec requires that a request failing session-token
verification be rejected before the external scoring call, but the handler
never consults the session authenticator.  At this concrete input the
verification fails (no session header is presented), yet the handler runs
to the external scoring call and answers 200. -/
theorem c1_scoring_runs_despite_failed_verification :
    verifySessionToken (fun _ m => m) ⟨some (str "k")⟩
        ⟨some (str "1.2.3.4"), none, none, none, none⟩ 5 =
      .ok (.invalid (str "Missing session token")) ∧
    POST ⟨true, fun _ => .ok ⟨true, 1, 0, 0⟩⟩
        ⟨some (str "1.2.3.4"), none, none, none, none⟩ 5
        (.ok ⟨.string (str "hello"), .string (str "Bob"), .nullval⟩)
        (.ok (str "analysis")) =
      { status := 200, events := [.rlCheck, .bodyParse, .llm] } :=
  ⟨rfl, rfl⟩

end SlopChecker
